import Mathlib

/-!
# Verification of the Firebase auth glue layer

Shallow embedding of `static/js/firebase-config.js` (Auth Client Wrapper and
Error Translator), the register-page controller, and the forgot-password-page
controller. Each asynchronous external call (provider SDK call, backend fetch)
is modelled by an explicit outcome value supplied in an environment record:
`SdkRes.ok v` for a fulfilled promise and `SdkRes.err code` for a rejected one
(carrying the provider `error.code`, or `error.message` where the source reads
that instead). Control flow, try/catch scoping and the DOM side effects
(button disabled state/label, error and success banners, redirects, fetches
issued) are translated statement by statement from the source.
-/

set_option linter.unusedVariables false

/-- Outcome of an awaited external call: fulfilled with a value, or rejected
with an error whose `code` (or message) is the carried string. -/
inductive SdkRes (α : Type) where
  | ok : α → SdkRes α
  | err : String → SdkRes α
deriving DecidableEq, Repr

/-- `true` iff the call was fulfilled. -/
def SdkRes.isOk : SdkRes α → Bool
  | .ok _ => true
  | .err _ => false

/-- The provider user object fields this layer reads
(`uid`, `email`, `displayName`, `photoURL`, `emailVerified`). -/
structure User where
  uid : String
  email : Option String
  displayName : Option String
  photoURL : Option String
  emailVerified : Bool
deriving DecidableEq, Repr

/-- The transient result value returned by every Auth Client Wrapper
operation: `{success, user?, error?, rawCode?}` (absent JS fields are `none`). -/
structure AuthResult where
  success : Bool
  user : Option User := none
  error : Option String := none
  rawCode : Option String := none
deriving DecidableEq, Repr

/-- The error-code → message table of `getErrorMessage`
(`firebase-config.js` lines 176–195), in source order. -/
def errorMessages : List (String × String) :=
  [("auth/email-already-in-use", "This email is already registered. Please sign in instead."),
   ("auth/invalid-email", "Please enter a valid email address."),
   ("auth/operation-not-allowed", "Email/password accounts are not enabled. Please contact support."),
   ("auth/weak-password", "Password should be at least 6 characters long."),
   ("auth/user-disabled", "This account has been disabled. Please contact support."),
   ("auth/user-not-found", "No account found with this email. Please sign up first."),
   ("auth/wrong-password", "Incorrect password. Please try again."),
   ("auth/invalid-credential", "Invalid email or password. Please try again."),
   ("auth/too-many-requests", "Too many failed attempts. Please try again later."),
   ("auth/network-request-failed", "Network error. Please check your connection."),
   ("auth/popup-closed-by-user", "Sign-in popup was closed. Please try again."),
   ("auth/cancelled-popup-request", "Sign-in was cancelled."),
   ("auth/popup-blocked", "Popup was blocked by your browser. Please allow popups and try again."),
   ("auth/account-exists-with-different-credential", "An account already exists with the same email but different sign-in credentials."),
   ("auth/invalid-action-code", "The password reset link is invalid or has expired. Please request a new one."),
   ("auth/expired-action-code", "The password reset link has expired. Please request a new one."),
   ("auth/missing-email", "Please enter your email address."),
   ("auth/requires-recent-login", "This operation requires recent authentication. Please sign in again.")]

/-- The fixed fallback message of the Error Translator. -/
def fallbackMessage : String := "An error occurred. Please try again."

/-- String-level reading of `getErrorMessage(errorCode)`
(`errorMessages[errorCode] || 'An error occurred. Please try again.'`) as a
table lookup with the generic fallback.  This reading ignores JS
prototype-chain inheritance, so it is accurate exactly for codes that are
not `Object.prototype` member keys; the full JS semantics is
`getErrorMessageJs` below, and the two are proved to agree away from those
keys.  The auth flows only apply this function to provider `auth/...`
codes, where the two semantics coincide. -/
def getErrorMessage (errorCode : String) : String :=
  (errorMessages.lookup errorCode).getD fallbackMessage

/-- A value that evaluating `errorMessages[errorCode] || '...'` can yield
under full JS semantics: a string, or a truthy member inherited from
`Object.prototype` (identified by its property name — a built-in function
for keys such as `toString`, the prototype object itself for `__proto__`). -/
inductive JsPropValue where
  | str : String → JsPropValue
  | protoMember : String → JsPropValue
deriving DecidableEq, Repr

/-- The property keys every object literal inherits from
`Object.prototype`, each bound to a truthy value (a built-in function, or
for `__proto__` the prototype object itself via its accessor). -/
def objectPrototypeKeys : List String :=
  ["constructor", "hasOwnProperty", "isPrototypeOf", "propertyIsEnumerable",
   "toLocaleString", "toString", "valueOf", "__proto__",
   "__defineGetter__", "__defineSetter__", "__lookupGetter__", "__lookupSetter__"]

/-- `getErrorMessage(errorCode)` under full JS semantics: the bracket
lookup `errorMessages[errorCode]` first finds an own property of the object
literal; failing that it traverses the prototype chain, finding the
inherited `Object.prototype` member for keys such as `toString`; otherwise
it yields `undefined`.  `|| 'An error occurred. Please try again.'` then
returns the looked-up value when it is truthy (a nonempty own string, or an
inherited member — functions and objects are always truthy) and the
fallback string only when the lookup was falsy (`undefined`, or an empty
own string). -/
def getErrorMessageJs (errorCode : String) : JsPropValue :=
  match errorMessages.lookup errorCode with
  | some m => if m = "" then .str fallbackMessage else .str m
  | none =>
      if errorCode ∈ objectPrototypeKeys then .protoMember errorCode
      else .str fallbackMessage

/-- `signInWithEmail(email, password)`: wraps
`auth.signInWithEmailAndPassword`; success yields `{success:true, user}`,
rejection is caught and yields `{success:false, error: getErrorMessage(code)}`.
The provider outcome is the explicit argument `res`. -/
def signInWithEmail (email password : String) (res : SdkRes User) : AuthResult :=
  match res with
  | .ok u => { success := true, user := some u }
  | .err code => { success := false, error := some (getErrorMessage code) }

/-- Environment for one `signUpWithEmail` call: outcomes of the three awaited
provider calls (`createUserWithEmailAndPassword`, `user.updateProfile`,
`user.sendEmailVerification`). -/
structure SignUpEnv where
  create : SdkRes User
  update : SdkRes Unit
  sendVerification : SdkRes Unit
deriving DecidableEq, Repr

/-- `signUpWithEmail(email, password, displayName)`: one try/catch around the
creation call and the two trailing calls (`updateProfile`, run only when
`displayName` is truthy, then `sendEmailVerification`).  Any rejection among
the three is caught by the single catch, which returns
`{success:false, error: getErrorMessage(code), rawCode: code}` for the
rejecting call's code. -/
def signUpWithEmail (email password displayName : String) (env : SignUpEnv) : AuthResult :=
  match env.create with
  | .err code =>
      { success := false, error := some (getErrorMessage code), rawCode := some code }
  | .ok u =>
      match (if displayName ≠ "" then env.update else .ok ()) with
      | .err code =>
          { success := false, error := some (getErrorMessage code), rawCode := some code }
      | .ok _ =>
          match env.sendVerification with
          | .err code =>
              { success := false, error := some (getErrorMessage code), rawCode := some code }
          | .ok _ => { success := true, user := some u }

/-- `signInWithGoogle()`: wraps `auth.signInWithPopup(googleProvider)`;
rejection (including popup cancellation) is caught and translated. -/
def signInWithGoogle (res : SdkRes User) : AuthResult :=
  match res with
  | .ok u => { success := true, user := some u }
  | .err code => { success := false, error := some (getErrorMessage code) }

/-- `resetPassword(email)`: wraps `auth.sendPasswordResetEmail`; success
returns just `{success:true}` (no `user` field), rejection is translated. -/
def resetPassword (email : String) (res : SdkRes Unit) : AuthResult :=
  match res with
  | .ok _ => { success := true }
  | .err code => { success := false, error := some (getErrorMessage code) }

/-- `signOut()`: wraps `auth.signOut()`; on rejection the caught error's
`message` (carried by `res`) is returned untranslated. -/
def signOut (res : SdkRes Unit) : AuthResult :=
  match res with
  | .ok _ => { success := true }
  | .err msg => { success := false, error := some msg }

/-- `getUserToken()`: returns `null` when nobody is signed in, otherwise
awaits `user.getIdToken()`, whose rejection propagates to the caller. -/
def getUserToken (currentUser : Option User) (idToken : SdkRes String) :
    SdkRes (Option String) :=
  match currentUser with
  | none => .ok none
  | some _ =>
      match idToken with
      | .ok t => .ok (some t)
      | .err e => .err e

/-- How JS string interpolation renders a possibly-`undefined` value
(`showError(result.error)` when `error` is absent would print "undefined"). -/
def jsStr (o : Option String) : String := o.getD "undefined"

/-- The `innerHTML` that `showLoading` installs on the button. -/
def loadingHtml : String := "<i class=\"fas fa-spinner fa-spin\"></i> Please wait..."

/-- Observable page state touched by the handlers: the submit control's
`disabled` flag and label, and the last error/success banners shown. -/
structure UiState where
  disabled : Bool
  label : String
  errorMsg : Option String := none
  successMsg : Option String := none
deriving DecidableEq, Repr

/-- `showLoading(button)`: disables the button, swaps in the spinner label and
returns the original label. -/
def showLoading (ui : UiState) : UiState × String :=
  ({ ui with disabled := true, label := loadingHtml }, ui.label)

/-- `hideLoading(button, originalText)`: re-enables the button and restores
the saved label. -/
def hideLoading (ui : UiState) (originalText : String) : UiState :=
  { ui with disabled := false, label := originalText }

/-- `showError(message)`: inserts the error banner. -/
def showErrorU (ui : UiState) (message : String) : UiState :=
  { ui with errorMsg := some message }

/-- `showSuccess(message)`: inserts the success banner. -/
def showSuccessU (ui : UiState) (message : String) : UiState :=
  { ui with successMsg := some message }

/-- A JSON value as produced by `JSON.stringify` on the shapes this code
sends: strings, booleans and `null`. -/
inductive JVal where
  | str : String → JVal
  | jbool : Bool → JVal
  | jnull : JVal
deriving DecidableEq, Repr

/-- A serialized JSON object body: the key/value pairs `JSON.stringify`
emits, in order.  A key absent from the object literal (or whose value is
`undefined`) does not appear at all. -/
abbrev JBody := List (String × JVal)

/-- Serialization of a string-or-null JS value. -/
def optStrVal : Option String → JVal
  | some s => .str s
  | none => .jnull

/-- The JSON body built by `completeBackendRegistration(token, email, uid,
name, photoURL, provider, isReregistration)`: always all seven keys, with the
source's `photoURL || ''`, `provider || 'email'`,
`isReregistration || false` defaults for absent/null arguments. -/
def completeBackendRegistrationBody (token : Option String) (email : Option String)
    (uid : String) (name : String) (photoURL : Option String)
    (provider : Option String) (isReregistration : Option Bool) : JBody :=
  [("token", optStrVal token),
   ("email", optStrVal email),
   ("uid", JVal.str uid),
   ("displayName", JVal.str name),
   ("photoURL", JVal.str (photoURL.getD "")),
   ("provider", JVal.str (provider.getD "email")),
   ("is_reregistration", JVal.jbool (isReregistration.getD false))]

/-- The JSON body the Google sign-up handler builds inline for its
`/firebase-register` fetch: six keys, no `is_reregistration`. -/
def googleRegisterBody (token : Option String) (u : User) : JBody :=
  [("token", optStrVal token),
   ("email", optStrVal u.email),
   ("uid", JVal.str u.uid),
   ("displayName", optStrVal u.displayName),
   ("photoURL", optStrVal u.photoURL),
   ("provider", JVal.str "google")]

/-- A parsed `/firebase-register` response: `{success: bool, error?: string}`. -/
structure RegResponse where
  success : Bool
  error : Option String := none
deriving DecidableEq, Repr

/-- Observable outcome of one run of a register-page handler. -/
structure RegisterOut where
  ui : UiState
  registerCalls : List JBody
  checkDeletedCalls : Nat
  signInAttempts : Nat
  redirect : Option String
  unhandled : Bool
deriving DecidableEq, Repr

/-- Environment for one submission of the registration form: outcomes of
every awaited external call that run may reach, in program order. -/
structure RegisterEnv where
  signUp : SignUpEnv
  currentUser1 : Option User
  idToken1 : SdkRes String
  backend1 : SdkRes RegResponse
  checkDeleted : SdkRes Bool
  recoverySignIn : SdkRes User
  currentUser2 : Option User
  idToken2 : SdkRes String
  backend2 : SdkRes RegResponse
deriving DecidableEq, Repr

/-- Placeholder for the field reads JS would perform on a missing
`result.user`; provably unreachable on success results. -/
def noUser : User := { uid := "", email := none, displayName := none,
                       photoURL := none, emailVerified := false }

/-- The `registerForm` submit handler, statement by statement:
validate password/confirmation locally; `signUpWithEmail`; on success run the
try-block of token fetch + backend registration; on failure with
`rawCode === 'auth/email-already-in-use'` run the recovery branch
(check-deleted-email fetch, then recovery sign-in, then backend registration
with `is_reregistration:true`), whose single catch shows `result.error`;
otherwise show `result.error`.  `registerCalls` records each
`/firebase-register` fetch attempted with its body. -/
def registerSubmit (name email password confirmPassword : String)
    (origLabel : String) (env : RegisterEnv) : RegisterOut :=
  let ui0 : UiState := { disabled := false, label := origLabel }
  if password ≠ confirmPassword then
    { ui := showErrorU ui0 "Passwords do not match!", registerCalls := [],
      checkDeletedCalls := 0, signInAttempts := 0, redirect := none, unhandled := false }
  else
    let loading := showLoading ui0
    let ui1 := loading.1
    let originalText := loading.2
    let result := signUpWithEmail email password name env.signUp
    if result.success then
      -- try { token; backend; } catch { hideLoading; 'Network error...' }
      match getUserToken env.currentUser1 env.idToken1 with
      | .err _ =>
          { ui := showErrorU (hideLoading ui1 originalText) "Network error. Please try again.",
            registerCalls := [], checkDeletedCalls := 0, signInAttempts := 0,
            redirect := none, unhandled := false }
      | .ok token =>
          let u := result.user.getD noUser
          let body := completeBackendRegistrationBody token u.email u.uid name none none none
          match env.backend1 with
          | .err _ =>
              { ui := showErrorU (hideLoading ui1 originalText) "Network error. Please try again.",
                registerCalls := [body], checkDeletedCalls := 0, signInAttempts := 0,
                redirect := none, unhandled := false }
          | .ok data =>
              if data.success then
                { ui := showSuccessU ui1
                    "Account created successfully! Please verify your email. Redirecting...",
                  registerCalls := [body], checkDeletedCalls := 0, signInAttempts := 0,
                  redirect := some "/login?success=Account created! Please check your email to verify your account.",
                  unhandled := false }
              else
                { ui := showErrorU (hideLoading ui1 originalText)
                    (data.error.getD "Registration failed. Please try again."),
                  registerCalls := [body], checkDeletedCalls := 0, signInAttempts := 0,
                  redirect := none, unhandled := false }
    else if result.rawCode = some "auth/email-already-in-use" then
      -- try { checkRes; ... } catch (err) { hideLoading; showError(result.error) }
      match env.checkDeleted with
      | .err _ =>
          { ui := showErrorU (hideLoading ui1 originalText) (jsStr result.error),
            registerCalls := [], checkDeletedCalls := 1, signInAttempts := 0,
            redirect := none, unhandled := false }
      | .ok deleted =>
          if deleted then
            let signInResult := signInWithEmail email password env.recoverySignIn
            if signInResult.success then
              match getUserToken env.currentUser2 env.idToken2 with
              | .err _ =>
                  { ui := showErrorU (hideLoading ui1 originalText) (jsStr result.error),
                    registerCalls := [], checkDeletedCalls := 1, signInAttempts := 1,
                    redirect := none, unhandled := false }
              | .ok token =>
                  let su := signInResult.user.getD noUser
                  let body := completeBackendRegistrationBody token su.email su.uid name
                    none (some "email") (some true)
                  match env.backend2 with
                  | .err _ =>
                      { ui := showErrorU (hideLoading ui1 originalText) (jsStr result.error),
                        registerCalls := [body], checkDeletedCalls := 1, signInAttempts := 1,
                        redirect := none, unhandled := false }
                  | .ok data =>
                      if data.success then
                        { ui := showSuccessU ui1 "Account re-created successfully! Redirecting...",
                          registerCalls := [body], checkDeletedCalls := 1, signInAttempts := 1,
                          redirect := some "/dashboard", unhandled := false }
                      else
                        { ui := showErrorU (hideLoading ui1 originalText)
                            (data.error.getD "Re-registration failed. Please try again."),
                          registerCalls := [body], checkDeletedCalls := 1, signInAttempts := 1,
                          redirect := none, unhandled := false }
            else
              { ui := showErrorU (hideLoading ui1 originalText)
                  "An account with this email exists. Please sign in or use a different email.",
                registerCalls := [], checkDeletedCalls := 1, signInAttempts := 1,
                redirect := none, unhandled := false }
          else
            { ui := showErrorU (hideLoading ui1 originalText) (jsStr result.error),
              registerCalls := [], checkDeletedCalls := 1, signInAttempts := 0,
              redirect := none, unhandled := false }
    else
      { ui := showErrorU (hideLoading ui1 originalText) (jsStr result.error),
        registerCalls := [], checkDeletedCalls := 0, signInAttempts := 0,
        redirect := none, unhandled := false }

/-- Environment for one click of the Google sign-up button. -/
structure GoogleEnv where
  popup : SdkRes User
  currentUser : Option User
  idToken : SdkRes String
  backend : SdkRes RegResponse
deriving DecidableEq, Repr

/-- The `googleSignUpBtn` click handler.  Note the source awaits
`getUserToken()` OUTSIDE the try/catch: a rejection there escapes the handler
as an unhandled rejection with the button still disabled. -/
def googleSignUp (origLabel : String) (env : GoogleEnv) : RegisterOut :=
  let ui0 : UiState := { disabled := false, label := origLabel }
  let loading := showLoading ui0
  let ui1 := loading.1
  let originalText := loading.2
  let result := signInWithGoogle env.popup
  if result.success then
    match getUserToken env.currentUser env.idToken with
    | .err _ =>
        -- `const token = await getUserToken();` is not inside the try block
        { ui := ui1, registerCalls := [], checkDeletedCalls := 0, signInAttempts := 0,
          redirect := none, unhandled := true }
    | .ok token =>
        let u := result.user.getD noUser
        let body := googleRegisterBody token u
        match env.backend with
        | .err _ =>
            { ui := showErrorU (hideLoading ui1 originalText) "Network error. Please try again.",
              registerCalls := [body], checkDeletedCalls := 0, signInAttempts := 0,
              redirect := none, unhandled := false }
        | .ok data =>
            if data.success then
              { ui := showSuccessU ui1 "Account created successfully! Redirecting...",
                registerCalls := [body], checkDeletedCalls := 0, signInAttempts := 0,
                redirect := some "/dashboard", unhandled := false }
            else
              { ui := showErrorU (hideLoading ui1 originalText)
                  (data.error.getD "Registration failed. Please try again."),
                registerCalls := [body], checkDeletedCalls := 0, signInAttempts := 0,
                redirect := none, unhandled := false }
  else
    { ui := showErrorU (hideLoading ui1 originalText) (jsStr result.error),
      registerCalls := [], checkDeletedCalls := 0, signInAttempts := 0,
      redirect := none, unhandled := false }

/-- A JS-regex `\s` whitespace character. -/
def jsWhitespace (c : Char) : Bool :=
  c = ' ' || c = '\t' || c = '\n' || c = '\r' || c = '\x0b' || c = '\x0c' ||
  c = '\u00a0' || c = '\u1680' || (0x2000 ≤ c.toNat && c.toNat ≤ 0x200a) ||
  c = '\u2028' || c = '\u2029' || c = '\u202f' || c = '\u205f' ||
  c = '\u3000' || c = '\ufeff'

/-- A character matched by the regex class `[^\s@]`. -/
def okChar (c : Char) : Bool := !jsWhitespace c && c ≠ '@'

/-- Matches `[^\s@]+$`: a nonempty run of `okChar`s. -/
def plusMatch (r : List Char) : Bool := !r.isEmpty && r.all okChar

/-- Matches `[^\s@]*\.[^\s@]+$`. -/
def midMatch : List Char → Bool
  | [] => false
  | x :: rest => (x = '.' && plusMatch rest) || (okChar x && midMatch rest)

/-- Matches `[^\s@]+\.[^\s@]+$` (the part after the `@`). -/
def tailMatch : List Char → Bool
  | [] => false
  | x :: rest => okChar x && midMatch rest

/-- Matches `[^\s@]*@[^\s@]+\.[^\s@]+$` (local part continued). -/
def localMatch : List Char → Bool
  | [] => false
  | x :: rest => (x = '@' && tailMatch rest) || (okChar x && localMatch rest)

/-- Matches the whole anchored pattern `^[^\s@]+@[^\s@]+\.[^\s@]+$`. -/
def emailMatch : List Char → Bool
  | [] => false
  | x :: rest => okChar x && localMatch rest

/-- `emailRegex.test(email)` for the forgot-password page's
`/^[^\s@]+@[^\s@]+\.[^\s@]+$/`. -/
def emailRegexTest (s : String) : Bool := emailMatch s.data

/-- Observable outcome of one submission of the forgot-password form. -/
structure ForgotOut where
  ui : UiState
  resetCalled : Bool
  redirect : Option String
deriving DecidableEq, Repr

/-- The `forgotPasswordForm` submit handler: local regex validation (reject
with no network call), then `resetPassword`; success shows the confirmation
and schedules the redirect, failure restores the button and shows the
translated error. -/
def forgotSubmit (email origLabel : String) (reset : SdkRes Unit) : ForgotOut :=
  let ui0 : UiState := { disabled := false, label := origLabel }
  if !emailRegexTest email then
    { ui := showErrorU ui0 "Please enter a valid email address.",
      resetCalled := false, redirect := none }
  else
    let loading := showLoading ui0
    let ui1 := loading.1
    let originalText := loading.2
    let result := resetPassword email reset
    if result.success then
      { ui := showSuccessU ui1 "Password reset email sent! Please check your inbox (and spam folder).",
        resetCalled := true,
        redirect := some "/login?success=Password reset email sent. Please check your inbox." }
    else
      { ui := showErrorU (hideLoading ui1 originalText) (jsStr result.error),
        resetCalled := true, redirect := none }

/-- The `local@domain.tld` shape the spec describes: a nonempty run of
non-whitespace-non-`@` characters, an `@`, then a domain part that splits at
some dot into two further nonempty such runs. -/
def emailShape (s : String) : Prop :=
  ∃ a b c : List Char, a ≠ [] ∧ b ≠ [] ∧ c ≠ [] ∧
    (∀ x ∈ a, okChar x) ∧ (∀ x ∈ b, okChar x) ∧ (∀ x ∈ c, okChar x) ∧
    s.data = a ++ '@' :: (b ++ '.' :: c)

/-- The seven keys of a `completeBackendRegistration` body. -/
def sevenKeys : List String :=
  ["token", "email", "uid", "displayName", "photoURL", "provider", "is_reregistration"]

/-- The six keys of the Google handler's inline body. -/
def sixKeys : List String :=
  ["token", "email", "uid", "displayName", "photoURL", "provider"]

/-- A concrete provider user for counterexamples and witnesses. -/
def sampleUser : User :=
  { uid := "uid-1", email := some "user@example.com", displayName := some "Alex",
    photoURL := none, emailVerified := false }

/-- A sign-up environment whose primary creation call succeeds but whose
trailing `sendEmailVerification` call rejects. -/
def trailingFailEnv : SignUpEnv :=
  { create := .ok sampleUser, update := .ok (),
    sendVerification := .err "auth/network-request-failed" }

/-- A Google-path environment in which the popup succeeds and the
subsequent `getUserToken()` call rejects. -/
def googleTokenRejectEnv : GoogleEnv :=
  { popup := .ok sampleUser, currentUser := some sampleUser,
    idToken := .err "auth/network-request-failed", backend := .ok { success := true } }

/-- A Google-path environment in which every external call succeeds. -/
def googleOkEnv : GoogleEnv :=
  { popup := .ok sampleUser, currentUser := some sampleUser,
    idToken := .ok "tok-1", backend := .ok { success := true } }

/-- A registration environment: creation rejects with
`auth/email-already-in-use` and the check-deleted-email fetch itself rejects
(a network failure inside step 4). -/
def recoveryNetFailEnv : RegisterEnv :=
  { signUp := { create := .err "auth/email-already-in-use", update := .ok (),
                sendVerification := .ok () },
    currentUser1 := some sampleUser, idToken1 := .ok "tok-1",
    backend1 := .ok { success := true },
    checkDeleted := .err "TypeError: Failed to fetch",
    recoverySignIn := .ok sampleUser,
    currentUser2 := some sampleUser, idToken2 := .ok "tok-1",
    backend2 := .ok { success := true } }

/-- A registration environment: creation rejects with
`auth/email-already-in-use`, the backend reports the email soft-deleted, and
the recovery sign-in rejects (wrong password). -/
def recoverySignInFailEnv : RegisterEnv :=
  { signUp := { create := .err "auth/email-already-in-use", update := .ok (),
                sendVerification := .ok () },
    currentUser1 := some sampleUser, idToken1 := .ok "tok-1",
    backend1 := .ok { success := true },
    checkDeleted := .ok true,
    recoverySignIn := .err "auth/wrong-password",
    currentUser2 := some sampleUser, idToken2 := .ok "tok-1",
    backend2 := .ok { success := true } }

/-- A registration environment: creation rejects with
`auth/email-already-in-use`, the email is reported soft-deleted, the recovery
sign-in succeeds, but the recovery-path `getUserToken()` call rejects. -/
def recoveryTokenRejectEnv : RegisterEnv :=
  { signUp := { create := .err "auth/email-already-in-use", update := .ok (),
                sendVerification := .ok () },
    currentUser1 := some sampleUser, idToken1 := .ok "tok-1",
    backend1 := .ok { success := true },
    checkDeleted := .ok true,
    recoverySignIn := .ok sampleUser,
    currentUser2 := some sampleUser, idToken2 := .err "auth/network-request-failed",
    backend2 := .ok { success := true } }

/-- A registration environment in which every external call succeeds and the
creation call rejects with `auth/email-already-in-use` (full recovery run). -/
def recoveryOkEnv : RegisterEnv :=
  { signUp := { create := .err "auth/email-already-in-use", update := .ok (),
                sendVerification := .ok () },
    currentUser1 := some sampleUser, idToken1 := .ok "tok-1",
    backend1 := .ok { success := true },
    checkDeleted := .ok true,
    recoverySignIn := .ok sampleUser,
    currentUser2 := some sampleUser, idToken2 := .ok "tok-1",
    backend2 := .ok { success := true } }

/-- A registration environment in which every call succeeds (normal path). -/
def normalOkEnv : RegisterEnv :=
  { signUp := { create := .ok sampleUser, update := .ok (), sendVerification := .ok () },
    currentUser1 := some sampleUser, idToken1 := .ok "tok-1",
    backend1 := .ok { success := true },
    checkDeleted := .ok false,
    recoverySignIn := .ok sampleUser,
    currentUser2 := some sampleUser, idToken2 := .ok "tok-1",
    backend2 := .ok { success := true } }

/-- Like `normalOkEnv` but with the normal-path backend fetch rejecting. -/
def normalNetFailEnv : RegisterEnv :=
  { normalOkEnv with backend1 := .err "TypeError: Failed to fetch" }

/-- Like `recoverySignInFailEnv` but the backend reports the email was not
soft-deleted. -/
def checkDeletedFalseEnv : RegisterEnv :=
  { recoverySignInFailEnv with checkDeleted := SdkRes.ok false }

lemma lookup_eq_none_of_not_mem_keys (l : List (String × String)) (c : String)
    (h : c ∉ l.map Prod.fst) : l.lookup c = none := by
  induction l with
  | nil => rfl
  | cons p t ih =>
    obtain ⟨k, v⟩ := p
    simp only [List.map_cons, List.mem_cons, not_or] at h
    have hck : (c == k) = false := beq_eq_false_iff_ne.mpr h.1
    simp [List.lookup, hck, ih h.2]

lemma plusMatch_iff (r : List Char) :
    plusMatch r = true ↔ r ≠ [] ∧ ∀ x ∈ r, okChar x := by
  cases r <;> simp [plusMatch]

lemma midMatch_iff (r : List Char) :
    midMatch r = true ↔
      ∃ b c, (∀ x ∈ b, okChar x) ∧ c ≠ [] ∧ (∀ x ∈ c, okChar x) ∧ r = b ++ '.' :: c := by
  induction r with
  | nil => simp [midMatch]
  | cons x rest ih =>
    simp only [midMatch, Bool.or_eq_true, Bool.and_eq_true, decide_eq_true_eq,
      plusMatch_iff, ih]
    constructor
    · rintro (⟨hx, hne, hall⟩ | ⟨hok, b, c, hball, hcne, hcall, heq⟩)
      · exact ⟨[], rest, by simp, hne, hall, by simp [hx]⟩
      · refine ⟨x :: b, c, ?_, hcne, hcall, by simp [heq]⟩
        intro y hy
        rcases List.mem_cons.mp hy with rfl | hy
        · exact hok
        · exact hball y hy
    · rintro ⟨b, c, hball, hcne, hcall, heq⟩
      cases b with
      | nil =>
        simp only [List.nil_append, List.cons.injEq] at heq
        obtain ⟨hx, hr⟩ := heq
        subst hr
        exact Or.inl ⟨hx, hcne, hcall⟩
      | cons y b' =>
        simp only [List.cons_append, List.cons.injEq] at heq
        refine Or.inr ⟨heq.1 ▸ hball y (by simp), b', c, ?_, hcne, hcall, heq.2⟩
        intro z hz
        exact hball z (by simp [hz])

lemma tailMatch_iff (r : List Char) :
    tailMatch r = true ↔
      ∃ b c, b ≠ [] ∧ (∀ x ∈ b, okChar x) ∧ c ≠ [] ∧ (∀ x ∈ c, okChar x) ∧
        r = b ++ '.' :: c := by
  cases r with
  | nil => simp [tailMatch]
  | cons x rest =>
    simp only [tailMatch, Bool.and_eq_true, midMatch_iff]
    constructor
    · rintro ⟨hok, b, c, hball, hcne, hcall, heq⟩
      refine ⟨x :: b, c, by simp, ?_, hcne, hcall, by simp [heq]⟩
      intro y hy
      rcases List.mem_cons.mp hy with rfl | hy
      · exact hok
      · exact hball y hy
    · rintro ⟨b, c, hbne, hball, hcne, hcall, heq⟩
      cases b with
      | nil => exact absurd rfl hbne
      | cons y b' =>
        simp only [List.cons_append, List.cons.injEq] at heq
        obtain ⟨rfl, hr⟩ := heq
        refine ⟨hball x (by simp), b', c, ?_, hcne, hcall, hr⟩
        intro z hz
        exact hball z (by simp [hz])

lemma localMatch_iff (r : List Char) :
    localMatch r = true ↔
      ∃ a rest, (∀ x ∈ a, okChar x) ∧ tailMatch rest = true ∧ r = a ++ '@' :: rest := by
  induction r with
  | nil => simp [localMatch]
  | cons x xs ih =>
    simp only [localMatch, Bool.or_eq_true, Bool.and_eq_true, decide_eq_true_eq, ih]
    constructor
    · rintro (⟨hx, ht⟩ | ⟨hok, a, rest, ha, ht, heq⟩)
      · exact ⟨[], xs, by simp, ht, by simp [hx]⟩
      · refine ⟨x :: a, rest, ?_, ht, by simp [heq]⟩
        intro y hy
        rcases List.mem_cons.mp hy with rfl | hy
        · exact hok
        · exact ha y hy
    · rintro ⟨a, rest, ha, ht, heq⟩
      cases a with
      | nil =>
        simp only [List.nil_append, List.cons.injEq] at heq
        obtain ⟨hx, hr⟩ := heq
        subst hr
        exact Or.inl ⟨hx, ht⟩
      | cons y a' =>
        simp only [List.cons_append, List.cons.injEq] at heq
        obtain ⟨rfl, hr⟩ := heq
        refine Or.inr ⟨ha x (by simp), a', rest, ?_, ht, hr⟩
        intro z hz
        exact ha z (by simp [hz])

lemma emailRegexTest_iff_shape (s : String) :
    emailRegexTest s = true ↔ emailShape s := by
  unfold emailRegexTest emailShape
  cases hs : s.data with
  | nil => simp [emailMatch]
  | cons x xs =>
    simp only [emailMatch, Bool.and_eq_true, localMatch_iff, tailMatch_iff]
    constructor
    · rintro ⟨hok, a, rest, ha, ht, heq⟩
      obtain ⟨b, c, hbne, hball, hcne, hcall, hr⟩ := ht
      refine ⟨x :: a, b, c, by simp, hbne, hcne, ?_, hball, hcall, ?_⟩
      · intro y hy
        rcases List.mem_cons.mp hy with rfl | hy
        · exact hok
        · exact ha y hy
      · simp [heq, hr]
    · rintro ⟨a, b, c, hane, hbne, hcne, haall, hball, hcall, heq⟩
      cases a with
      | nil => exact absurd rfl hane
      | cons y a' =>
        simp only [List.cons_append, List.cons.injEq] at heq
        obtain ⟨rfl, hr⟩ := heq
        refine ⟨haall x (by simp), a', b ++ '.' :: c, ?_, ?_, hr⟩
        · intro z hz
          exact haall z (by simp [hz])
        · exact ⟨b, c, hbne, hball, hcne, hcall, rfl⟩

lemma completeBody_keys (token email : Option String) (uid name : String)
    (photoURL provider : Option String) (isRe : Option Bool) :
    (completeBackendRegistrationBody token email uid name photoURL provider isRe).map
      Prod.fst = sevenKeys := rfl

lemma googleBody_keys (token : Option String) (u : User) :
    (googleRegisterBody token u).map Prod.fst = sixKeys := rfl

/-- C1 counterexample: the claim says a trailing-call failure still surfaces
the primary creation success, but in `trailingFailEnv` the creation call
succeeds (`create = ok sampleUser`) while `sendEmailVerification` rejects, and
`signUpWithEmail` returns `success = false` with the trailing call's code. -/
theorem c1_counterexample :
    trailingFailEnv.create = SdkRes.ok sampleUser ∧
    (signUpWithEmail "user@example.com" "pw123456" "Alex" trailingFailEnv).success = false ∧
    (signUpWithEmail "user@example.com" "pw123456" "Alex" trailingFailEnv).rawCode =
      some "auth/network-request-failed" :=
  ⟨rfl, rfl, rfl⟩

/-- C1 amended: `signUpWithEmail` reports success only when the primary
creation call and both trailing calls (display-name update when the name is
nonempty, verification send) all succeed; any rejection among the three —
the trailing ones included — yields `success = false` with `rawCode` set to
the failing call's provider code.  In particular, on primary creation
failure the raw provider code is preserved in `rawCode` for caller-side
special-case handling. -/
theorem c1_signUpWithEmail_outcomes (email password displayName : String) (env : SignUpEnv) :
    (∀ code, env.create = SdkRes.err code →
        signUpWithEmail email password displayName env =
          { success := false, error := some (getErrorMessage code), rawCode := some code }) ∧
    (∀ u, env.create = SdkRes.ok u →
        (if displayName ≠ "" then env.update else SdkRes.ok ()) = SdkRes.ok () →
        env.sendVerification = SdkRes.ok () →
        signUpWithEmail email password displayName env = { success := true, user := some u }) ∧
    (∀ u, env.create = SdkRes.ok u →
        (signUpWithEmail email password displayName env).success = true →
        (if displayName ≠ "" then env.update else SdkRes.ok ()) = SdkRes.ok () ∧
          env.sendVerification = SdkRes.ok ()) := by
  obtain ⟨cr, up, sv⟩ := env
  refine ⟨?_, ?_, ?_⟩
  · rintro code rfl
    rfl
  · rintro u rfl h1 h2
    simp only at h1 h2
    simp [signUpWithEmail, h1, h2]
  · rintro u rfl h
    by_cases hd : displayName = "" <;>
      rcases up with t | e <;> rcases sv with t2 | e2 <;>
        simp_all [signUpWithEmail, hd]

/-- C1 witness: `c1_signUpWithEmail_outcomes` applied to a creation rejection
with code `auth/email-already-in-use`. -/
theorem c1_witness :
    signUpWithEmail "user@example.com" "pw123456" "Alex"
        ⟨SdkRes.err "auth/email-already-in-use", SdkRes.ok (), SdkRes.ok ()⟩ =
      { success := false, error := some (getErrorMessage "auth/email-already-in-use"),
        rawCode := some "auth/email-already-in-use" } :=
  (c1_signUpWithEmail_outcomes "user@example.com" "pw123456" "Alex"
      ⟨SdkRes.err "auth/email-already-in-use", SdkRes.ok (), SdkRes.ok ()⟩).1
    "auth/email-already-in-use" rfl

/-- C2 counterexample: the claim says `success = true` implies the `user`
field is present for every operation in the list, `resetPassword` included;
but a successful `resetPassword` returns `{success: true}` with no `user`. -/
theorem c2_counterexample :
    (resetPassword "user@example.com" (SdkRes.ok ())).success = true ∧
    (resetPassword "user@example.com" (SdkRes.ok ())).user = none :=
  ⟨rfl, rfl⟩

/-- C2 amended: for the three sign-in/sign-up operations, `success = true`
implies `user` present and `error` absent, and `success = false` implies
`error` present and `user` absent; `resetPassword` and `signOut` never carry
a `user` field (their success result has neither `user` nor `error`, and
their failure result carries `error` only). -/
theorem c2_authresult_invariant (email password displayName : String)
    (rIn rG : SdkRes User) (envUp : SignUpEnv) (rReset rOut : SdkRes Unit) :
    (((signInWithEmail email password rIn).success = true →
        (signInWithEmail email password rIn).user.isSome = true ∧
        (signInWithEmail email password rIn).error = none) ∧
     ((signInWithEmail email password rIn).success = false →
        (signInWithEmail email password rIn).error.isSome = true ∧
        (signInWithEmail email password rIn).user = none)) ∧
    (((signUpWithEmail email password displayName envUp).success = true →
        (signUpWithEmail email password displayName envUp).user.isSome = true ∧
        (signUpWithEmail email password displayName envUp).error = none) ∧
     ((signUpWithEmail email password displayName envUp).success = false →
        (signUpWithEmail email password displayName envUp).error.isSome = true ∧
        (signUpWithEmail email password displayName envUp).user = none)) ∧
    (((signInWithGoogle rG).success = true →
        (signInWithGoogle rG).user.isSome = true ∧ (signInWithGoogle rG).error = none) ∧
     ((signInWithGoogle rG).success = false →
        (signInWithGoogle rG).error.isSome = true ∧ (signInWithGoogle rG).user = none)) ∧
    ((resetPassword email rReset).user = none ∧
     ((resetPassword email rReset).success = true → (resetPassword email rReset).error = none) ∧
     ((resetPassword email rReset).success = false →
        (resetPassword email rReset).error.isSome = true)) ∧
    ((signOut rOut).user = none ∧
     ((signOut rOut).success = true → (signOut rOut).error = none) ∧
     ((signOut rOut).success = false → (signOut rOut).error.isSome = true)) := by
  obtain ⟨cr, up, sv⟩ := envUp
  refine ⟨⟨?_, ?_⟩, ⟨?_, ?_⟩, ⟨?_, ?_⟩, ⟨?_, ?_, ?_⟩, ⟨?_, ?_, ?_⟩⟩ <;>
    first
      | (rcases rIn with u | e <;> simp [signInWithEmail])
      | (rcases rG with u | e <;> simp [signInWithGoogle])
      | (rcases rReset with t | e <;> simp [resetPassword])
      | (rcases rOut with t | e <;> simp [signOut])
      | (by_cases hd : displayName = "" <;>
          rcases cr with u | e <;> rcases up with t | e2 <;> rcases sv with t2 | e3 <;>
            simp_all [signUpWithEmail, hd])

/-- C2 witness: `c2_authresult_invariant` applied to a successful email
sign-in. -/
theorem c2_witness :
    (signInWithEmail "user@example.com" "pw123456" (SdkRes.ok sampleUser)).user.isSome = true ∧
    (signInWithEmail "user@example.com" "pw123456" (SdkRes.ok sampleUser)).error = none :=
  (c2_authresult_invariant "user@example.com" "pw123456" "Alex" (SdkRes.ok sampleUser)
      (SdkRes.ok sampleUser)
      ⟨SdkRes.ok sampleUser, SdkRes.ok (), SdkRes.ok ()⟩
      (SdkRes.ok ()) (SdkRes.ok ())).1.1 rfl

/-- C3 counterexample: in `googleTokenRejectEnv` the Google popup succeeds
and the `getUserToken()` call — awaited outside the handler's try/catch —
rejects: the rejection escapes unhandled and the button is left disabled, so
the flow does not restore the control on this failure path. -/
theorem c3_counterexample :
    (googleSignUp "Sign up with Google" googleTokenRejectEnv).unhandled = true ∧
    (googleSignUp "Sign up with Google" googleTokenRejectEnv).ui.disabled = true ∧
    (googleSignUp "Sign up with Google" googleTokenRejectEnv).ui.successMsg = none :=
  ⟨rfl, rfl, rfl⟩

/-- C3 amended: the email-registration handler never lets a rejection escape
and restores the submit control (enabled, original label) on every run that
does not end in a success banner; the forgot-password handler does the same;
the Google handler restores the control on every run that does not end in a
success banner EXCEPT that its `getUserToken()` call sits outside the
try/catch, so the handler ends with an unhandled rejection (and the button
still disabled) exactly when the popup succeeds and the token fetch
rejects. -/
theorem c3_control_restoration (name email password confirmPassword origLabel : String)
    (env : RegisterEnv) (genv : GoogleEnv) (femail : String) (reset : SdkRes Unit) :
    ((registerSubmit name email password confirmPassword origLabel env).unhandled = false) ∧
    ((registerSubmit name email password confirmPassword origLabel env).ui.successMsg = none →
        (registerSubmit name email password confirmPassword origLabel env).ui.disabled = false ∧
        (registerSubmit name email password confirmPassword origLabel env).ui.label = origLabel) ∧
    ((googleSignUp origLabel genv).unhandled = false →
      (googleSignUp origLabel genv).ui.successMsg = none →
        (googleSignUp origLabel genv).ui.disabled = false ∧
        (googleSignUp origLabel genv).ui.label = origLabel) ∧
    ((googleSignUp origLabel genv).unhandled = true ↔
        (signInWithGoogle genv.popup).success = true ∧
        (getUserToken genv.currentUser genv.idToken).isOk = false) ∧
    ((forgotSubmit femail origLabel reset).ui.successMsg = none →
        (forgotSubmit femail origLabel reset).ui.disabled = false ∧
        (forgotSubmit femail origLabel reset).ui.label = origLabel) := by
  refine ⟨?_, ?_, ?_, ?_, ?_⟩
  · simp only [registerSubmit]
    repeat' split
    all_goals rfl
  · simp only [registerSubmit]
    repeat' split
    all_goals simp [showLoading, hideLoading, showErrorU, showSuccessU]
  · simp only [googleSignUp]
    repeat' split
    all_goals simp [showLoading, hideLoading, showErrorU, showSuccessU]
  · obtain ⟨pp, cu, it, bk⟩ := genv
    rcases pp with u | e <;> rcases cu with u2 | e2 <;> rcases it with t | e3 <;>
      rcases bk with d | e4 <;>
        simp [googleSignUp, signInWithGoogle, getUserToken, SdkRes.isOk,
          showLoading, hideLoading, showErrorU, showSuccessU] <;>
        split <;> simp
  · simp only [forgotSubmit]
    repeat' split
    all_goals simp [showLoading, hideLoading, showErrorU, showSuccessU]

/-- C3 witness: `c3_control_restoration` applied to a failed recovery
sign-in run, where the control ends enabled with its original label. -/
theorem c3_witness :
    (registerSubmit "Alex" "user@example.com" "pw123456" "pw123456" "Create Account"
        recoverySignInFailEnv).ui.disabled = false ∧
    (registerSubmit "Alex" "user@example.com" "pw123456" "pw123456" "Create Account"
        recoverySignInFailEnv).ui.label = "Create Account" :=
  (c3_control_restoration "Alex" "user@example.com" "pw123456" "pw123456" "Create Account"
      recoverySignInFailEnv googleOkEnv "user@example.com" (SdkRes.ok ())).2.1 rfl

/-- C4 counterexample: a fetch rejection in the recovery branch (step 4,
`recoveryNetFailEnv`) surfaces the original already-in-use provider message,
not the generic "Network error. Please try again." the claim requires. -/
theorem c4_counterexample :
    recoveryNetFailEnv.checkDeleted = SdkRes.err "TypeError: Failed to fetch" ∧
    (registerSubmit "Alex" "user@example.com" "pw123456" "pw123456" "Create Account"
        recoveryNetFailEnv).ui.errorMsg =
      some "This email is already registered. Please sign in instead." ∧
    (registerSubmit "Alex" "user@example.com" "pw123456" "pw123456" "Create Account"
        recoveryNetFailEnv).ui.errorMsg ≠ some "Network error. Please try again." :=
  ⟨rfl, rfl, by decide⟩

/-- C4 amended: a network failure during step 3 (token fetch or backend
registration after a successful creation) surfaces the generic
"Network error. Please try again." and re-enables the submit control; a
network failure during step 4 (check-deleted-email fetch, or the recovery
path's token fetch / backend fetch) also re-enables the control but
surfaces the original translated already-in-use provider message instead of
the generic network-error message. -/
theorem c4_network_failure_handling (name email password confirmPassword origLabel : String)
    (env : RegisterEnv) (hpw : password = confirmPassword) :
    ((signUpWithEmail email password name env.signUp).success = true →
      ((getUserToken env.currentUser1 env.idToken1).isOk = false ∨ env.backend1.isOk = false) →
      (registerSubmit name email password confirmPassword origLabel env).ui.errorMsg =
        some "Network error. Please try again." ∧
      (registerSubmit name email password confirmPassword origLabel env).ui.disabled = false ∧
      (registerSubmit name email password confirmPassword origLabel env).ui.label = origLabel) ∧
    (env.signUp.create = SdkRes.err "auth/email-already-in-use" →
      (env.checkDeleted.isOk = false ∨
        (env.checkDeleted = SdkRes.ok true ∧
         (signInWithEmail email password env.recoverySignIn).success = true ∧
         ((getUserToken env.currentUser2 env.idToken2).isOk = false ∨
           env.backend2.isOk = false))) →
      (registerSubmit name email password confirmPassword origLabel env).ui.errorMsg =
        some (getErrorMessage "auth/email-already-in-use") ∧
      (registerSubmit name email password confirmPassword origLabel env).ui.disabled = false ∧
      (registerSubmit name email password confirmPassword origLabel env).ui.label = origLabel) := by
  obtain ⟨⟨cr, up, sv⟩, cu1, it1, b1, cd, rsi, cu2, it2, b2⟩ := env
  subst hpw
  constructor
  · intro hs hnet
    rcases htk : getUserToken cu1 it1 with t | e
    · rcases b1 with d | e2
      · simp [htk, SdkRes.isOk] at hnet
      · simp [registerSubmit, hs, htk, showLoading, hideLoading, showErrorU]
    · simp [registerSubmit, hs, htk, showLoading, hideLoading, showErrorU]
  · intro hcr hnet
    simp only at hcr
    subst hcr
    rcases hnet with hcd | ⟨hcd, hsi, hnet2⟩
    · rcases cd with d | e
      · simp [SdkRes.isOk] at hcd
      · simp [registerSubmit, signUpWithEmail, showLoading, hideLoading, showErrorU, jsStr]
    · simp only at hcd
      subst hcd
      rcases htk : getUserToken cu2 it2 with t | e
      · rcases b2 with d | e2
        · simp [htk, SdkRes.isOk] at hnet2
        · simp [registerSubmit, signUpWithEmail, hsi, htk, showLoading, hideLoading,
            showErrorU, jsStr]
      · simp [registerSubmit, signUpWithEmail, hsi, htk, showLoading, hideLoading,
          showErrorU, jsStr]

/-- C4 witness: `c4_network_failure_handling` applied to a step-3 backend
fetch rejection, which surfaces the generic network-error message. -/
theorem c4_witness :
    (registerSubmit "Alex" "user@example.com" "pw123456" "pw123456" "Create Account"
        normalNetFailEnv).ui.errorMsg = some "Network error. Please try again." :=
  ((c4_network_failure_handling "Alex" "user@example.com" "pw123456" "pw123456"
      "Create Account" normalNetFailEnv rfl).1 rfl (Or.inr rfl)).1

/-- C5 counterexample: in the recovery branch with the email reported
soft-deleted, a failed recovery sign-in surfaces the fixed message
"An account with this email exists. Please sign in or use a different
email.", which is not the original already-in-use provider error message
the claim requires. -/
theorem c5_counterexample :
    recoverySignInFailEnv.checkDeleted = SdkRes.ok true ∧
    (signInWithEmail "user@example.com" "pw123456"
        recoverySignInFailEnv.recoverySignIn).success = false ∧
    (registerSubmit "Alex" "user@example.com" "pw123456" "pw123456" "Create Account"
        recoverySignInFailEnv).ui.errorMsg =
      some "An account with this email exists. Please sign in or use a different email." ∧
    (registerSubmit "Alex" "user@example.com" "pw123456" "pw123456" "Create Account"
        recoverySignInFailEnv).ui.errorMsg ≠
      some (getErrorMessage "auth/email-already-in-use") :=
  ⟨rfl, rfl, rfl, by decide⟩

/-- C5 amended: when the backend reports the email was not soft-deleted the
flow surfaces the original already-in-use provider error message; when the
email was soft-deleted but the recovery sign-in fails, the flow surfaces
the fixed message "An account with this email exists. Please sign in or use
a different email." instead of the original provider message. -/
theorem c5_recovery_error_surface (name email password confirmPassword origLabel : String)
    (env : RegisterEnv) (hpw : password = confirmPassword)
    (hcr : env.signUp.create = SdkRes.err "auth/email-already-in-use") :
    (env.checkDeleted = SdkRes.ok false →
      (registerSubmit name email password confirmPassword origLabel env).ui.errorMsg =
        some (getErrorMessage "auth/email-already-in-use")) ∧
    (env.checkDeleted = SdkRes.ok true →
      (signInWithEmail email password env.recoverySignIn).success = false →
      (registerSubmit name email password confirmPassword origLabel env).ui.errorMsg =
        some "An account with this email exists. Please sign in or use a different email.") := by
  obtain ⟨⟨cr, up, sv⟩, cu1, it1, b1, cd, rsi, cu2, it2, b2⟩ := env
  subst hpw
  simp only at hcr
  subst hcr
  constructor
  · intro hcd
    simp only at hcd
    subst hcd
    simp [registerSubmit, signUpWithEmail, showLoading, hideLoading, showErrorU, jsStr]
  · intro hcd hsi
    simp only at hcd
    subst hcd
    simp [registerSubmit, signUpWithEmail, hsi, showLoading, hideLoading, showErrorU, jsStr]

/-- C5 witness: `c5_recovery_error_surface` applied to a failed recovery
sign-in. -/
theorem c5_witness :
    (registerSubmit "Alex" "user@example.com" "pw123456" "pw123456" "Create Account"
        recoverySignInFailEnv).ui.errorMsg =
      some "An account with this email exists. Please sign in or use a different email." :=
  (c5_recovery_error_surface "Alex" "user@example.com" "pw123456" "pw123456" "Create Account"
      recoverySignInFailEnv rfl rfl).2 rfl rfl

/-- C6 counterexample: a fully successful Google sign-up run issues exactly
one `/firebase-register` request, and its body carries only six keys —
`is_reregistration` is absent, contradicting the claim that every path
sends all seven fields. -/
theorem c6_counterexample :
    ((googleSignUp "Sign up with Google" googleOkEnv).registerCalls.map
        (fun b => b.map Prod.fst)) = [sixKeys] ∧
    "is_reregistration" ∉ sixKeys :=
  ⟨rfl, by decide⟩

/-- C6 amended: every `/firebase-register` body built by
`completeBackendRegistration` — i.e. every body sent by the normal email
registration and re-registration recovery paths — carries exactly the seven
fields token, email, uid, displayName, photoURL, provider,
is_reregistration; the Google sign-up path's inline body carries only the
first six and omits is_reregistration. -/
theorem c6_register_body_fields :
    (∀ (token email : Option String) (uid name : String)
        (photoURL provider : Option String) (isRe : Option Bool),
        (completeBackendRegistrationBody token email uid name photoURL provider isRe).map
          Prod.fst = sevenKeys) ∧
    (∀ (name email password confirmPassword origLabel : String) (env : RegisterEnv)
        (b : JBody),
        b ∈ (registerSubmit name email password confirmPassword origLabel env).registerCalls →
        b.map Prod.fst = sevenKeys) ∧
    (∀ (origLabel : String) (genv : GoogleEnv) (b : JBody),
        b ∈ (googleSignUp origLabel genv).registerCalls →
        b.map Prod.fst = sixKeys) := by
  refine ⟨completeBody_keys, ?_, ?_⟩
  · intro name email password confirmPassword origLabel env b
    simp only [registerSubmit]
    repeat' split
    all_goals
      intro hb
    all_goals
      simp only [List.mem_singleton, List.not_mem_nil] at hb
    all_goals
      first
        | exact absurd hb (by simp)
        | (subst hb; exact completeBody_keys _ _ _ _ _ _ _)
  · intro origLabel genv b
    simp only [googleSignUp]
    repeat' split
    all_goals
      intro hb
    all_goals
      simp only [List.mem_singleton, List.not_mem_nil] at hb
    all_goals
      first
        | exact absurd hb (by simp)
        | (subst hb; exact googleBody_keys _ _)

/-- C6 witness: `c6_register_body_fields` applied to the body of the
request issued by a fully successful Google run. -/
theorem c6_witness :
    (googleRegisterBody (some "tok-1") sampleUser).map Prod.fst = sixKeys :=
  c6_register_body_fields.2.2 "Sign up with Google" googleOkEnv
    (googleRegisterBody (some "tok-1") sampleUser) (by decide)

/-- C7 counterexample: all of the claim's conditions hold in
`recoveryTokenRejectEnv` — creation failed with auth/email-already-in-use,
check-deleted-email returned deleted:true, and the recovery sign-in with the
submitted credentials succeeded — yet the flow makes zero calls to
`/firebase-register`, because the recovery path's `getUserToken()` call
rejected and the catch ran first. -/
theorem c7_counterexample :
    (signUpWithEmail "user@example.com" "pw123456" "Alex"
        recoveryTokenRejectEnv.signUp).rawCode = some "auth/email-already-in-use" ∧
    recoveryTokenRejectEnv.checkDeleted = SdkRes.ok true ∧
    (signInWithEmail "user@example.com" "pw123456"
        recoveryTokenRejectEnv.recoverySignIn).success = true ∧
    (registerSubmit "Alex" "user@example.com" "pw123456" "pw123456" "Create Account"
        recoveryTokenRejectEnv).registerCalls = [] :=
  ⟨rfl, rfl, rfl, rfl⟩

/-- C7 amended: under the claim's conditions (creation rejected with
auth/email-already-in-use, check-deleted-email returned deleted:true,
recovery sign-in succeeded) the flow makes at most one `/firebase-register`
call, makes exactly one when the recovery-path token fetch does not reject,
and every call it does make carries `is_reregistration: true`. -/
theorem c7_reregistration_call (name email password confirmPassword origLabel : String)
    (env : RegisterEnv) (hpw : password = confirmPassword)
    (hcr : env.signUp.create = SdkRes.err "auth/email-already-in-use")
    (hcd : env.checkDeleted = SdkRes.ok true)
    (hsi : (signInWithEmail email password env.recoverySignIn).success = true) :
    (registerSubmit name email password confirmPassword origLabel env).registerCalls.length ≤ 1 ∧
    ((getUserToken env.currentUser2 env.idToken2).isOk = true →
      (registerSubmit name email password confirmPassword origLabel env).registerCalls.length
        = 1) ∧
    (∀ b ∈ (registerSubmit name email password confirmPassword origLabel env).registerCalls,
      b.lookup "is_reregistration" = some (JVal.jbool true)) := by
  obtain ⟨⟨cr, up, sv⟩, cu1, it1, b1, cd, rsi, cu2, it2, b2⟩ := env
  subst hpw
  simp only at hcr hcd hsi
  subst hcr
  subst hcd
  rcases htk : getUserToken cu2 it2 with t | e
  · rcases b2 with d | e2
    · refine ⟨?_, ?_, ?_⟩ <;>
        simp [registerSubmit, signUpWithEmail, hsi, htk, List.lookup] <;>
        split <;> simp [List.lookup]
    · refine ⟨?_, ?_, ?_⟩ <;>
        simp [registerSubmit, signUpWithEmail, hsi, htk, List.lookup]
  · refine ⟨?_, ?_, ?_⟩ <;>
      simp [registerSubmit, signUpWithEmail, hsi, htk, SdkRes.isOk]

/-- C7 witness: `c7_reregistration_call` applied to a fully successful
recovery run, which makes exactly one `/firebase-register` call. -/
theorem c7_witness :
    (registerSubmit "Alex" "user@example.com" "pw123456" "pw123456" "Create Account"
        recoveryOkEnv).registerCalls.length = 1 :=
  (c7_reregistration_call "Alex" "user@example.com" "pw123456" "pw123456" "Create Account"
      recoveryOkEnv rfl rfl rfl rfl).2.1 rfl

/-- C8: when creation fails with auth/email-already-in-use and the
check-deleted-email call returns deleted:false, the flow surfaces the
original translated provider error text (which differs from the generic
fallback), attempts no sign-in, and issues no `/firebase-register` call. -/
theorem c8_deleted_false_surfaces_original (name email password confirmPassword
    origLabel : String) (env : RegisterEnv) (hpw : password = confirmPassword)
    (hcr : env.signUp.create = SdkRes.err "auth/email-already-in-use")
    (hcd : env.checkDeleted = SdkRes.ok false) :
    (registerSubmit name email password confirmPassword origLabel env).ui.errorMsg =
      some (getErrorMessage "auth/email-already-in-use") ∧
    getErrorMessage "auth/email-already-in-use" ≠ fallbackMessage ∧
    (registerSubmit name email password confirmPassword origLabel env).signInAttempts = 0 ∧
    (registerSubmit name email password confirmPassword origLabel env).registerCalls = [] := by
  obtain ⟨⟨cr, up, sv⟩, cu1, it1, b1, cd, rsi, cu2, it2, b2⟩ := env
  subst hpw
  simp only at hcr hcd
  subst hcr
  subst hcd
  refine ⟨?_, by decide, ?_, ?_⟩ <;>
    simp [registerSubmit, signUpWithEmail, showLoading, hideLoading, showErrorU, jsStr]

/-- C8 witness: `c8_deleted_false_surfaces_original` applied to
`checkDeletedFalseEnv`. -/
theorem c8_witness :
    (registerSubmit "Alex" "user@example.com" "pw123456" "pw123456" "Create Account"
        checkDeletedFalseEnv).ui.errorMsg =
      some (getErrorMessage "auth/email-already-in-use") ∧
    (registerSubmit "Alex" "user@example.com" "pw123456" "pw123456" "Create Account"
        checkDeletedFalseEnv).signInAttempts = 0 :=
  ⟨(c8_deleted_false_surfaces_original "Alex" "user@example.com" "pw123456" "pw123456"
      "Create Account" checkDeletedFalseEnv rfl rfl rfl).1,
   (c8_deleted_false_surfaces_original "Alex" "user@example.com" "pw123456" "pw123456"
      "Create Account" checkDeletedFalseEnv rfl rfl rfl).2.2.1⟩

/-- C9 counterexample: "toString" is not a key of the translation table,
yet under JS lookup semantics `errorMessages["toString"]` finds the truthy
function inherited from `Object.prototype`, so the translator returns that
member — not the fixed fallback string — contradicting the claim that every
string outside the table maps exactly to the fallback. -/
theorem c9_counterexample :
    "toString" ∉ errorMessages.map Prod.fst ∧
    getErrorMessageJs "toString" = JsPropValue.protoMember "toString" ∧
    getErrorMessageJs "toString" ≠ JsPropValue.str fallbackMessage :=
  ⟨by decide, rfl, by decide⟩

/-- C9 amended: the translator never throws and is deterministic; every
code in the translation table returns exactly its mapped string; every
string that is neither a table key nor an `Object.prototype` member key
returns exactly the fixed fallback string; but for the inherited member
keys (`toString`, `constructor`, `hasOwnProperty`, `__proto__`, ...) the
bracket lookup finds the truthy inherited member, which `||` passes
through, so the translator returns that member and never any string.  Away
from the prototype keys the string-level `getErrorMessage` agrees with the
full JS semantics. -/
theorem c9_translator_lookup (code : String) :
    (∀ p ∈ errorMessages, getErrorMessageJs p.1 = JsPropValue.str p.2) ∧
    (code ∉ errorMessages.map Prod.fst → code ∉ objectPrototypeKeys →
      getErrorMessageJs code = JsPropValue.str fallbackMessage) ∧
    (code ∉ errorMessages.map Prod.fst → code ∈ objectPrototypeKeys →
      getErrorMessageJs code = JsPropValue.protoMember code ∧
      ∀ s, getErrorMessageJs code ≠ JsPropValue.str s) ∧
    (code ∉ objectPrototypeKeys →
      getErrorMessageJs code = JsPropValue.str (getErrorMessage code)) := by
  refine ⟨?_, ?_, ?_, ?_⟩
  · intro p hp
    fin_cases hp <;> rfl
  · intro hk hp
    unfold getErrorMessageJs
    rw [lookup_eq_none_of_not_mem_keys _ _ hk]
    simp [hp]
  · intro hk hp
    unfold getErrorMessageJs
    rw [lookup_eq_none_of_not_mem_keys _ _ hk]
    simp [hp]
  · intro hp
    by_cases hk : code ∈ errorMessages.map Prod.fst
    · fin_cases hk <;> rfl
    · unfold getErrorMessageJs getErrorMessage
      rw [lookup_eq_none_of_not_mem_keys _ _ hk]
      simp [hp]

/-- C9 witness: `c9_translator_lookup` applied to a table code, to a plain
unknown code, and to the inherited key "hasOwnProperty". -/
theorem c9_witness :
    getErrorMessageJs "auth/weak-password" =
      JsPropValue.str "Password should be at least 6 characters long." ∧
    getErrorMessageJs "auth/unknown-code" = JsPropValue.str fallbackMessage ∧
    getErrorMessageJs "hasOwnProperty" = JsPropValue.protoMember "hasOwnProperty" :=
  ⟨(c9_translator_lookup "auth/unknown-code").1
      ("auth/weak-password", "Password should be at least 6 characters long.")
      (by simp [errorMessages]),
   (c9_translator_lookup "auth/unknown-code").2.1 (by decide) (by decide),
   ((c9_translator_lookup "hasOwnProperty").2.2.1 (by decide) (by decide)).1⟩

/-- C10: the forgot-password flow rejects, without invoking the reset
operation, every email whose text fails the page's regex — which holds
exactly of strings with the `local@domain.tld` shape (`emailShape`) — and
invokes `resetPassword` on every email that matches; "not-an-email" is
rejected and "user@example.com" accepted. -/
theorem c10_forgot_password_validation :
    (∀ email origLabel reset, emailRegexTest email = false →
        (forgotSubmit email origLabel reset).resetCalled = false ∧
        (forgotSubmit email origLabel reset).ui.errorMsg =
          some "Please enter a valid email address." ∧
        (forgotSubmit email origLabel reset).ui.disabled = false) ∧
    (∀ email origLabel reset, emailRegexTest email = true →
        (forgotSubmit email origLabel reset).resetCalled = true) ∧
    (∀ s, emailRegexTest s = true ↔ emailShape s) ∧
    emailRegexTest "not-an-email" = false ∧
    emailRegexTest "user@example.com" = true := by
  refine ⟨?_, ?_, emailRegexTest_iff_shape, by decide, by decide⟩
  · intro email origLabel reset h
    simp [forgotSubmit, h, showErrorU]
  · intro email origLabel reset h
    simp [forgotSubmit, h, resetPassword]
    split <;> simp

/-- C10 witness: `c10_forgot_password_validation` applied to the two example
inputs. -/
theorem c10_witness :
    (forgotSubmit "not-an-email" "Send Reset Link" (SdkRes.ok ())).resetCalled = false ∧
    (forgotSubmit "user@example.com" "Send Reset Link" (SdkRes.ok ())).resetCalled = true :=
  ⟨(c10_forgot_password_validation.1 "not-an-email" "Send Reset Link" (SdkRes.ok ())
      (by decide)).1,
   c10_forgot_password_validation.2.1 "user@example.com" "Send Reset Link" (SdkRes.ok ())
      (by decide)⟩
